import Mathlib

/-!
Shallow embedding of the tlgBot survey engine (Go) in Lean 4.

The embedding follows the Go sources:
* `internal/models/models.go` — data model (`Config`, `Option`, `Question`,
  `UserState`) and their methods;
* `internal/services/question.go` — the question graph (`QuestionManager`),
  modelled as a lookup function `Graph`;
* the user-state manager (`UserStateManager`) — modelled as a lookup function
  `Store`; its mutex only serializes access, so sequential semantics is the
  faithful single-event model;
* `internal/bot/bot.go` — the traversal engine; outbound Telegram calls are
  modelled as an `Emission` trace (the transport mock that always succeeds);
* `internal/handlers/telegram.go` — the event handlers.

Mutations that Go performs in place through `*UserState` pointers are modelled
by threading the `Store` explicitly; a function's error return does not roll
back mutations already applied, matching the pointer semantics.  The recursive
auto-advance chain has no termination guarantee in Go, so it is given explicit
fuel; every theorem below that touches it holds independently of the fuel value
or discharges the auto-advance guard before fuel is consumed.
-/

/-- Configuration fields from `models.Config` (internal/models/models.go). -/
structure Config where
  telegramToken : String := ""
  googleCreds : String := ""
  sheetID : String := ""
  delayMs : Int := 0
  startQuestionID : String := ""
  questionsFilePath : String := ""
deriving DecidableEq

/-- Embeds `models.Option` (named `QOption`: `Option` is Lean's built-in). -/
structure QOption where
  text : String := ""
  nextID : String := ""
  action : String := ""
deriving DecidableEq

/-- Embeds `models.Question`. -/
structure Question where
  id : String := ""
  text : String := ""
  messages : List String := []
  images : List String := []
  options : List QOption := []
  externalLink : String := ""
  externalText : String := ""
  input : String := ""
  inputType : String := ""
  inputPlaceholder : String := ""
  delayMs : Option Int := none
  autoAdvance : Bool := false
  autoAdvanceDelayMs : Int := 0
deriving DecidableEq

/-- Embeds `Question.GetDelayMs`: the per-question delay, or the default. -/
def Question.GetDelayMs (q : Question) (defaultDelay : Int) : Int :=
  match q.delayMs with
  | some d => d
  | none => defaultDelay

/-- Embeds `Question.HasKeyboard`. -/
def Question.HasKeyboard (q : Question) : Bool :=
  !q.autoAdvance && (!q.options.isEmpty || (q.externalLink != "" && q.externalText != ""))

/-- Embeds `Question.GetDisplayText`: the text, else the last message, else "". -/
def Question.GetDisplayText (q : Question) : String :=
  if q.text != "" then q.text
  else
    match q.messages.getLast? with
    | some m => m
    | none => ""

/-- Embeds `models.UserState` (field order as in the Go struct); the Go
`map[string]string` of answers is an association list with key overwrite. -/
structure UserState where
  currentQuestionID : String := ""
  answers : List (String × String) := []
  name : String := ""
deriving DecidableEq

/-- Key-overwriting insertion into the answers association list, the
behaviour of `us.Answers[question] = answer` on the Go map. -/
def setAnswer : List (String × String) → String → String → List (String × String)
  | [], k, v => [(k, v)]
  | (k', v') :: rest, k, v =>
    if k' = k then (k, v) :: rest else (k', v') :: setAnswer rest k v

/-- Embeds `models.NewUserState`. -/
def NewUserState (name : String) : UserState :=
  { currentQuestionID := "", answers := [], name := name }

/-- Embeds `UserState.AddAnswer`. -/
def UserState.AddAnswer (us : UserState) (question answer : String) : UserState :=
  { us with answers := setAnswer us.answers question answer }

/-- The state map of `services.UserStateManager` (userID → state). -/
abbrev Store : Type := Int → Option UserState

/-- The question table of `services.QuestionManager`; `g id` is
`GetQuestion id` with `none` for its "question not found" error. -/
abbrev Graph : Type := String → Option Question

/-- Embeds `UserStateManager.SetUserState`. -/
def SetUserState (store : Store) (uid : Int) (st : UserState) : Store :=
  fun u => if u = uid then some st else store u

/-- Embeds `UserStateManager.UpdateCurrentQuestion`: no-op when the user is
absent, otherwise rewrites only the `currentQuestionID` field. -/
def UpdateCurrentQuestion (store : Store) (uid : Int) (qid : String) : Store :=
  match store uid with
  | none => store
  | some st => SetUserState store uid { st with currentQuestionID := qid }

/-- Embeds `UserStateManager.GetOrCreateUserState`. -/
def GetOrCreateUserState (store : Store) (uid : Int) (userName : String) :
    Store × UserState :=
  match store uid with
  | some st => (store, st)
  | none =>
    let st := NewUserState userName
    (SetUserState store uid st, st)

/-- Inline keyboard buttons from `bot.BuildKeyboard`: callback-data buttons
for options, a URL button for the external link. -/
inductive KbButton where
  | data (text callback : String)
  | url (text link : String)
deriving DecidableEq

/-- A keyboard is a list of button rows (`tgbotapi.InlineKeyboardMarkup`). -/
abbrev Keyboard : Type := List (List KbButton)

/-- One outbound effect of the engine; sends always succeed (mock transport). -/
inductive Emission where
  | text (content : String) (kb : Option Keyboard)
  | photo (image : String)
  | mediaGroup (images : List String)
  | sleep (ms : Int)
  | locationRequest
  | callbackAck
deriving DecidableEq

/-- Replaces every occurrence of the literal placeholder `\x7bname\x7d` in a
character list, scanning left to right without rescanning the replacement —
the behaviour of Go's `strings.ReplaceAll(text, "\x7bname\x7d", name)`. -/
def substName (name : List Char) : List Char → List Char
  | '\x7b' :: 'n' :: 'a' :: 'm' :: 'e' :: '\x7d' :: rest => name ++ substName name rest
  | c :: rest => c :: substName name rest
  | [] => []

/-- Embeds `bot.replaceNamePlaceholder` (structural version of
`strings.ReplaceAll`, so that it reduces in the kernel). -/
def replaceNamePlaceholder (text name : String) : String :=
  String.mk (substName name.data text.data)

/-- Embeds `bot.generateAnswersSummary`: empty string for no answers,
otherwise a header plus one bulleted `key: value` line per answer. -/
def generateAnswersSummary (answers : List (String × String)) : String :=
  if answers.isEmpty then ""
  else
    "\n\n📋 Your answers:\n"
      ++ String.join (answers.map (fun p => "• " ++ p.1 ++ ": " ++ p.2 ++ "\n"))

/-- Embeds `bot.buildMediaGroup`: keeps only non-empty image paths. -/
def buildMediaGroup (images : List String) : List String :=
  images.filter (fun img => img != "")

/-- Embeds `bot.SendImages` (with `sendSingleImage` / `sendMultipleImages`):
nothing for an empty list; a single photo then the delay; a media group of the
non-empty paths then the delay (nothing when all paths are empty). -/
def SendImages (images : List String) (delay : Int) : List Emission :=
  match images with
  | [] => []
  | [img] => if img = "" then [] else [Emission.photo img, Emission.sleep delay]
  | _ =>
    let media := buildMediaGroup images
    if media.isEmpty then [] else [Emission.mediaGroup media, Emission.sleep delay]

/-- Embeds `bot.SendMessages`: each message with the placeholder substituted,
the keyboard only on the last message, and a sleep of the *global* configured
delay between messages (never after the last). -/
def SendMessages (cfg : Config) (userName : String) (keyboard : Option Keyboard) :
    List String → List Emission
  | [] => []
  | [m] => [Emission.text (replaceNamePlaceholder m userName) keyboard]
  | m :: rest =>
    Emission.text (replaceNamePlaceholder m userName) none
      :: Emission.sleep cfg.delayMs
      :: SendMessages cfg userName keyboard rest

/-- Embeds `bot.BuildKeyboard`: `none` unless `HasKeyboard`; one row per
option (callback data = option text) plus a trailing URL row when both the
external link and its label are set. -/
def BuildKeyboard (q : Question) : Option Keyboard :=
  if !q.HasKeyboard then none
  else
    let rows := q.options.map (fun o => [KbButton.data o.text o.text])
    let rows :=
      if q.externalLink != "" && q.externalText != "" then
        rows ++ [[KbButton.url q.externalText q.externalLink]]
      else rows
    some rows

/-- Embeds `bot.ProcessQuestion`: error when the user has no state; otherwise
images (with the per-question delay), then either the message sequence or the
single text — with the answers summary appended exactly for node id "end". -/
def ProcessQuestion (cfg : Config) (store : Store) (uid : Int)
    (q : Question) : Except String (List Emission) :=
  match store uid with
  | none => Except.error "user state not found"
  | some st =>
    let imgEvs :=
      if 0 < q.images.length then SendImages q.images (q.GetDelayMs cfg.delayMs)
      else []
    let keyboard := BuildKeyboard q
    if 0 < q.messages.length then
      Except.ok (imgEvs ++ SendMessages cfg st.name keyboard q.messages)
    else if q.text != "" then
      let text := replaceNamePlaceholder q.text st.name
      let text :=
        if q.id = "end" then text ++ generateAnswersSummary st.answers else text
      Except.ok (imgEvs ++ [Emission.text text keyboard])
    else
      Except.ok imgEvs

/-- Result of a bot-level operation: the store after all in-place mutations,
the emission trace, and the error value (mutations survive an error, exactly
as Go pointer updates survive an early error return). -/
structure BotResult where
  store : Store
  events : List Emission
  err : Option String

/-- Embeds `bot.HandleAutoAdvance`, with fuel for the unguarded recursion:
return at once unless `autoAdvance`; sleep the auto-advance delay (global
default when zero); then, when options exist, follow the *first* option,
update the position, emit the next node and recurse. -/
def HandleAutoAdvance (g : Graph) (cfg : Config) : Nat → Store → Int → Question → BotResult
  | 0, store, _, q =>
    if !q.autoAdvance then ⟨store, [], none⟩
    else ⟨store, [], some "auto-advance chain exceeded fuel"⟩
  | fuel + 1, store, uid, q =>
    if !q.autoAdvance then ⟨store, [], none⟩
    else
      let d := if q.autoAdvanceDelayMs = 0 then cfg.delayMs else q.autoAdvanceDelayMs
      match q.options with
      | [] => ⟨store, [Emission.sleep d], none⟩
      | o :: _ =>
        match g o.nextID with
        | none => ⟨store, [Emission.sleep d], some "failed to get next question"⟩
        | some nq =>
          let store1 := UpdateCurrentQuestion store uid o.nextID
          match ProcessQuestion cfg store1 uid nq with
          | Except.error e => ⟨store1, [Emission.sleep d], some e⟩
          | Except.ok evs =>
            let r := HandleAutoAdvance g cfg fuel store1 uid nq
            ⟨r.store, Emission.sleep d :: (evs ++ r.events), r.err⟩

/-- Embeds `moveToNextQuestion` (the identical helper in bot.go and
telegram.go): look up the next node, update the position, emit it, then chain
auto-advance. -/
def moveToNextQuestion (g : Graph) (cfg : Config) (fuel : Nat) (store : Store)
    (uid : Int) (nextQuestionID : String) : BotResult :=
  match g nextQuestionID with
  | none => ⟨store, [], some "failed to get next question"⟩
  | some nq =>
    let store1 := UpdateCurrentQuestion store uid nextQuestionID
    match ProcessQuestion cfg store1 uid nq with
    | Except.error e => ⟨store1, [], some e⟩
    | Except.ok evs =>
      let r := HandleAutoAdvance g cfg fuel store1 uid nq
      ⟨r.store, evs ++ r.events, r.err⟩

/-- Embeds `bot.ProcessAnswer`: record the answer keyed by the *display text*
of the user's current question. -/
def ProcessAnswer (g : Graph) (store : Store) (uid : Int) (answer : String) :
    Except String Store :=
  match store uid with
  | none => Except.error "user state not found"
  | some st =>
    match g st.currentQuestionID with
    | none => Except.error "failed to get current question"
    | some q =>
      Except.ok (SetUserState store uid (st.AddAnswer q.GetDisplayText answer))

/-- The in-order first-match scan of `bot.ProcessOptionAnswer`'s option loop. -/
def findOption (payload : String) : List QOption → Option QOption
  | [] => none
  | o :: rest => if o.text = payload then some o else findOption payload rest

/-- Embeds `bot.ProcessOptionAnswer`: find the first option whose text equals
the payload (error, no mutation, when none matches); record the answer; for
the "get_location" action emit the location request without moving; otherwise
move to the option's next node. -/
def ProcessOptionAnswer (g : Graph) (cfg : Config) (fuel : Nat) (store : Store)
    (uid : Int) (optionText : String) : BotResult :=
  match store uid with
  | none => ⟨store, [], some "user state not found"⟩
  | some st =>
    match g st.currentQuestionID with
    | none => ⟨store, [], some "failed to get current question"⟩
    | some q =>
      match findOption optionText q.options with
      | none => ⟨store, [], some ("option not found: " ++ optionText)⟩
      | some opt =>
        match ProcessAnswer g store uid optionText with
        | Except.error e => ⟨store, [], some e⟩
        | Except.ok store1 =>
          if opt.action = "get_location" then ⟨store1, [Emission.locationRequest], none⟩
          else moveToNextQuestion g cfg fuel store1 uid opt.nextID

/-- The relevant fields of `tgbotapi.User` for `bot.GetTelegramName`. -/
structure TgUser where
  firstName : String := ""
  userName : String := ""
deriving DecidableEq

/-- Embeds `bot.GetTelegramName`: first name, else username, else "User". -/
def GetTelegramName (u : TgUser) : String :=
  if u.firstName != "" then u.firstName
  else if u.userName != "" then u.userName
  else "User"

/-- An inbound Telegram message as the handler distinguishes it:
`message.IsCommand()` selects the command branch with `message.Command()`,
otherwise the plain text is handled. -/
inductive Inbound where
  | command (name : String)
  | text (content : String)
deriving DecidableEq

/-- Embeds `handlers.handleTextInput` (errors are logged and swallowed, so
the result is just the store and the trace): nothing without a position or a
known current node or when the node expects no input; otherwise record the
text as the answer and, when options exist, move to the first option's next
node. -/
def handleTextInput (g : Graph) (cfg : Config) (fuel : Nat) (store : Store)
    (uid : Int) (userState : UserState) (text : String) : Store × List Emission :=
  if userState.currentQuestionID = "" then (store, [])
  else
    match g userState.currentQuestionID with
    | none => (store, [])
    | some currentQuestion =>
      if currentQuestion.inputType != "" then
        match ProcessAnswer g store uid text with
        | Except.error _ => (store, [])
        | Except.ok store1 =>
          match currentQuestion.options with
          | [] => (store1, [])
          | o :: _ =>
            let r := moveToNextQuestion g cfg fuel store1 uid o.nextID
            (r.store, r.events)
      else (store, [])

/-- Embeds `handlers.startConversation`: position the session at the
configured start node, store it, emit the node, then chain auto-advance. -/
def startConversation (g : Graph) (cfg : Config) (fuel : Nat) (store : Store)
    (uid : Int) (userState : UserState) : Store × List Emission :=
  match g cfg.startQuestionID with
  | none => (store, [])
  | some startQuestion =>
    let userState := { userState with currentQuestionID := cfg.startQuestionID }
    let store1 := SetUserState store uid userState
    match ProcessQuestion cfg store1 uid startQuestion with
    | Except.error _ => (store1, [])
    | Except.ok evs =>
      let r := HandleAutoAdvance g cfg fuel store1 uid startQuestion
      (r.store, evs ++ r.events)

/-- Embeds `handlers.handleCommand`: only "/start" is meaningful. -/
def handleCommand (g : Graph) (cfg : Config) (fuel : Nat) (store : Store)
    (uid : Int) (userState : UserState) (command : String) : Store × List Emission :=
  if command = "start" then startConversation g cfg fuel store uid userState
  else (store, [])

/-- Embeds `handlers.HandleMessage`: get-or-create the session (capturing the
display name via `GetTelegramName`), then dispatch on command vs text. -/
def HandleMessage (g : Graph) (cfg : Config) (fuel : Nat) (store : Store)
    (uid : Int) (user : TgUser) (message : Inbound) : Store × List Emission :=
  let userName := GetTelegramName user
  let res := GetOrCreateUserState store uid userName
  match message with
  | Inbound.command c => handleCommand g cfg fuel res.1 uid res.2 c
  | Inbound.text s => handleTextInput g cfg fuel res.1 uid res.2 s

/-- Embeds `handlers.HandleCallbackQuery`: acknowledge the callback, drop the
event when the user has no session, otherwise process the option answer
(errors logged and swallowed). -/
def HandleCallbackQuery (g : Graph) (cfg : Config) (fuel : Nat) (store : Store)
    (uid : Int) (payload : String) : Store × List Emission :=
  let ack := [Emission.callbackAck]
  match store uid with
  | none => (store, ack)
  | some _ =>
    let r := ProcessOptionAnswer g cfg fuel store uid payload
    (r.store, ack ++ r.events)

/-! Concrete fixtures used by witnesses and counterexamples. -/

/-- A store with no sessions. -/
def emptyStore : Store := fun _ => none

/-- A small configuration: global delay 5 ms, start node "start". -/
def cfgEx : Config := { delayMs := 5, startQuestionID := "start" }

/-- A node with two options carrying the same label "A" (first goes to "x"). -/
def qPick : Question :=
  { id := "cur", text := "Pick one",
    options := [{ text := "A", nextID := "x" }, { text := "A", nextID := "y" }] }

/-- Target node "x". -/
def qX : Question := { id := "x", text := "X" }

/-- Target node "y". -/
def qY : Question := { id := "y", text := "Y" }

/-- Graph for the duplicate-label scenario. -/
def gPick : Graph := fun s =>
  if s = "cur" then some qPick
  else if s = "x" then some qX
  else if s = "y" then some qY
  else none

/-- One session, positioned at "cur". -/
def storePick : Store :=
  SetUserState emptyStore 7 { currentQuestionID := "cur", name := "Nia" }

/-- The terminal node of the linear-flow scenario. -/
def qEnd : Question := { id := "end", text := "Done" }

/-- Node "q1" with options "Yes"/"No", both leading to "end". -/
def qYesNo : Question :=
  { id := "q1", text := "Q1",
    options := [{ text := "Yes", nextID := "end" }, { text := "No", nextID := "end" }] }

/-- Graph for the Yes/No scenario. -/
def gQ1 : Graph := fun s =>
  if s = "q1" then some qYesNo
  else if s = "end" then some qEnd
  else none

/-- One session, positioned at "q1". -/
def storeQ1 : Store :=
  SetUserState emptyStore 1 { currentQuestionID := "q1", name := "N" }

/-- Helper: a scan over options with no matching label yields no option. -/
theorem findOption_none_of_no_match {payload : String} :
    ∀ {opts : List QOption}, (∀ o ∈ opts, o.text ≠ payload) →
      findOption payload opts = none := by
  intro opts h
  induction opts with
  | nil => rfl
  | cons a rest ih =>
    have ha : ¬a.text = payload := h a (List.mem_cons_self a rest)
    simp only [findOption, ha, if_false]
    exact ih fun o ho => h o (List.mem_cons_of_mem a ho)

/-- Claim C1: option resolution scans the current node's options in list
order and picks the first option whose label equals the payload; in
particular with options `[\x7b"A","x"\x7d, \x7b"A","y"\x7d]`, selecting "A"
moves the session to node "x". -/
theorem C1_first_match_option_resolution :
    (∀ (pre : List QOption) (o : QOption) (post : List QOption) (payload : String),
        (∀ o' ∈ pre, o'.text ≠ payload) → o.text = payload →
        findOption payload (pre ++ o :: post) = some o)
    ∧ ((ProcessOptionAnswer gPick cfgEx 10 storePick 7 "A").store 7).map
        (fun s => s.currentQuestionID) = some "x" := by
  constructor
  · intro pre o post payload hpre ho
    induction pre with
    | nil => simp [findOption, ho]
    | cons a rest ih =>
      have ha : ¬a.text = payload := hpre a (List.mem_cons_self a rest)
      simp only [List.cons_append, findOption, ha, if_false]
      exact ih fun o' h => hpre o' (List.mem_cons_of_mem a h)
  · rfl

/-- Witness for C1 at a concrete option list with a duplicated label. -/
theorem C1_witness :
    findOption "A"
        ([] ++ ({ text := "A", nextID := "x" } : QOption)
          :: [({ text := "A", nextID := "y" } : QOption)])
      = some ({ text := "A", nextID := "x" } : QOption) :=
  C1_first_match_option_resolution.1 [] _ _ "A" (by simp) rfl

/-- Claim C2: a callback payload matching no option label of the current
node makes `ProcessOptionAnswer` return an error and leave the store — hence
the session's position and answers — entirely unchanged, with no emission. -/
theorem C2_unmatched_payload_error_no_change (g : Graph) (cfg : Config)
    (fuel : Nat) (store : Store) (uid : Int) (st : UserState) (q : Question)
    (payload : String) (hs : store uid = some st)
    (hq : g st.currentQuestionID = some q)
    (hno : ∀ o ∈ q.options, o.text ≠ payload) :
    ProcessOptionAnswer g cfg fuel store uid payload
      = ⟨store, [], some ("option not found: " ++ payload)⟩ := by
  simp only [ProcessOptionAnswer, hs, hq, findOption_none_of_no_match hno]

/-- Witness for C2: at "q1" (options "Yes"/"No"), selecting "Maybe" errors
and changes nothing. -/
theorem C2_witness :
    ProcessOptionAnswer gQ1 cfgEx 10 storeQ1 1 "Maybe"
      = ⟨storeQ1, [], some ("option not found: " ++ "Maybe")⟩ :=
  C2_unmatched_payload_error_no_change gQ1 cfgEx 10 storeQ1 1
    { currentQuestionID := "q1", name := "N" } qYesNo "Maybe" rfl rfl (by decide)

/-- Claim C3: `GetOrCreateUserState` creates-and-stores a fresh session with
empty answers, empty position and the supplied display name when the user is
absent, and returns the stored session unchanged (ignoring the supplied
name) when one exists. -/
theorem C3_getOrCreateUserState_spec (store : Store) (uid : Int) (name : String) :
    (store uid = none →
        GetOrCreateUserState store uid name
          = (SetUserState store uid (NewUserState name), NewUserState name)
        ∧ (GetOrCreateUserState store uid name).1 uid = some (NewUserState name)
        ∧ (NewUserState name).currentQuestionID = ""
        ∧ (NewUserState name).answers = []
        ∧ (NewUserState name).name = name)
    ∧ ∀ st, store uid = some st → GetOrCreateUserState store uid name = (store, st) := by
  constructor
  · intro h
    refine ⟨?_, ?_, rfl, rfl, rfl⟩
    · unfold GetOrCreateUserState; rw [h]
    · unfold GetOrCreateUserState; rw [h]; simp [SetUserState]
  · intro st h
    unfold GetOrCreateUserState; rw [h]

/-- Witness for C3: creation on an empty store, and an existing session
returned unchanged with the new display name "Zed" ignored. -/
theorem C3_witness :
    GetOrCreateUserState emptyStore 1 "Ann"
        = (SetUserState emptyStore 1 (NewUserState "Ann"), NewUserState "Ann")
    ∧ GetOrCreateUserState storeQ1 1 "Zed"
        = (storeQ1, { currentQuestionID := "q1", answers := [], name := "N" }) :=
  ⟨((C3_getOrCreateUserState_spec emptyStore 1 "Ann").1 rfl).1,
   (C3_getOrCreateUserState_spec storeQ1 1 "Zed").2 _ rfl⟩

/-- Claim C4: `UpdateCurrentQuestion` is a store no-op when the user is
absent; otherwise it rewrites only that session's position (answers and
display name kept) and leaves every other user's entry untouched. -/
theorem C4_updateCurrentQuestion_frame (store : Store) (uid : Int) (qid : String) :
    (store uid = none → UpdateCurrentQuestion store uid qid = store)
    ∧ ∀ st, store uid = some st →
        UpdateCurrentQuestion store uid qid uid
            = some { st with currentQuestionID := qid }
        ∧ ∀ uid', uid' ≠ uid → UpdateCurrentQuestion store uid qid uid' = store uid' := by
  constructor
  · intro h; unfold UpdateCurrentQuestion; rw [h]
  · intro st h
    constructor
    · unfold UpdateCurrentQuestion; rw [h]; simp [SetUserState]
    · intro uid' hne
      unfold UpdateCurrentQuestion; rw [h]; simp [SetUserState, hne]

/-- Witness for C4: no-op on the empty store; on an existing session only
the position changes and user 2's (absent) entry is untouched. -/
theorem C4_witness :
    UpdateCurrentQuestion emptyStore 1 "q2" = emptyStore
    ∧ UpdateCurrentQuestion storeQ1 1 "q2" 1
        = some { currentQuestionID := "q2", answers := [], name := "N" }
    ∧ UpdateCurrentQuestion storeQ1 1 "q2" 2 = storeQ1 2 :=
  ⟨(C4_updateCurrentQuestion_frame emptyStore 1 "q2").1 rfl,
   ((C4_updateCurrentQuestion_frame storeQ1 1 "q2").2 _ rfl).1,
   ((C4_updateCurrentQuestion_frame storeQ1 1 "q2").2 _ rfl).2 2 (by decide)⟩

/-- A two-message node carrying a per-node delay override of 999 ms. -/
def qMsgs : Question := { id := "d", messages := ["a", "b"], delayMs := some 999 }

/-- A session with empty position, used when only emission is observed. -/
def storeMsgs : Store := SetUserState emptyStore 1 { name := "N" }

/-- The sleep durations occurring in an emission trace, in order. -/
def sleeps (evs : List Emission) : List Int :=
  evs.filterMap fun e =>
    match e with
    | Emission.sleep d => some d
    | _ => none

/-- Counterexample to claim C5: a node whose `delayMs` override is 999 and
whose global default is 5 still gets a 5 ms sleep between its two messages —
the override does not govern the inter-message delay. -/
theorem C5_counterexample_interMessageDelay :
    qMsgs.delayMs = some 999
    ∧ cfgEx.delayMs = 5
    ∧ ProcessQuestion cfgEx storeMsgs 1 qMsgs
        = Except.ok [Emission.text "a" none, Emission.sleep 5, Emission.text "b" none]
    ∧ sleeps [Emission.text "a" none, Emission.sleep 5, Emission.text "b" none] = [5]
    ∧ (5 : Int) ≠ 999 :=
  ⟨rfl, rfl, rfl, rfl, by decide⟩

/-- Claim C5 as amended: every delay inserted between successive messages of
a node's emission equals the *global* default `delayMs`, whatever the node's
`delayMs` override; the override (via `GetDelayMs`) governs only the delay
attached to the node's image sending. -/
theorem C5_amended_delay_semantics :
    (∀ (cfg : Config) (name : String) (kb : Option Keyboard) (msgs : List String),
        sleeps (SendMessages cfg name kb msgs)
          = List.replicate (msgs.length - 1) cfg.delayMs)
    ∧ (∀ (q : Question) (dflt d : Int), q.delayMs = some d → q.GetDelayMs dflt = d)
    ∧ (∀ (q : Question) (dflt : Int), q.delayMs = none → q.GetDelayMs dflt = dflt)
    ∧ (∀ (cfg : Config) (store : Store) (uid : Int) (st : UserState) (q : Question),
        store uid = some st → q.images = [] → q.messages ≠ [] →
        ProcessQuestion cfg store uid q
          = Except.ok (SendMessages cfg st.name (BuildKeyboard q) q.messages)) := by
  refine ⟨?_, ?_, ?_, ?_⟩
  · intro cfg name kb msgs
    induction msgs with
    | nil => rfl
    | cons m rest ih =>
      cases rest with
      | nil => rfl
      | cons m2 r2 =>
        simp only [SendMessages, sleeps, List.filterMap_cons] at ih ⊢
        simp only [ih, List.length_cons, Nat.succ_sub_one, List.replicate_succ]
  · intro q dflt d h
    unfold Question.GetDelayMs
    rw [h]
  · intro q dflt h
    unfold Question.GetDelayMs
    rw [h]
  · intro cfg store uid st q hs himg hmsg
    simp only [ProcessQuestion, hs, himg]
    rw [if_pos (List.length_pos.mpr hmsg), if_neg (by simp)]
    simp

/-- Helper: the session written by `SetUserState` is present at its key. -/
theorem setUserState_self (store : Store) (uid : Int) (st : UserState) :
    SetUserState store uid st uid = some st := by
  simp [SetUserState]

/-- Helper: `SetUserState` never removes a present session. -/
theorem setUserState_isSome (store : Store) (uid u : Int) (st : UserState)
    (h : (store u).isSome = true) : (SetUserState store uid st u).isSome = true := by
  by_cases hu : u = uid <;> simp [SetUserState, hu, h]

/-- Helper: `UpdateCurrentQuestion` never removes a present session. -/
theorem updateCurrentQuestion_isSome (store : Store) (uid u : Int) (qid : String)
    (h : (store u).isSome = true) :
    (UpdateCurrentQuestion store uid qid u).isSome = true := by
  unfold UpdateCurrentQuestion
  cases hs : store uid with
  | none => exact h
  | some st => exact setUserState_isSome store uid u _ h

/-- Helper: `ProcessQuestion` succeeds whenever the user has a session. -/
theorem processQuestion_ok (cfg : Config) (store : Store) (uid : Int)
    (q : Question) (st : UserState) (h : store uid = some st) :
    ∃ evs, ProcessQuestion cfg store uid q = Except.ok evs := by
  simp only [ProcessQuestion, h]
  split
  · exact ⟨_, rfl⟩
  · split
    · exact ⟨_, rfl⟩
    · exact ⟨_, rfl⟩

/-- Helper: a non-auto-advance node stops the auto-advance chain at once. -/
theorem handleAutoAdvance_not_auto (g : Graph) (cfg : Config) (fuel : Nat)
    (store : Store) (uid : Int) (q : Question) (h : q.autoAdvance = false) :
    HandleAutoAdvance g cfg fuel store uid q = ⟨store, [], none⟩ := by
  cases fuel <;> simp [HandleAutoAdvance, h]

/-- Helper: the auto-advance chain never removes a present session. -/
theorem handleAutoAdvance_isSome (g : Graph) (cfg : Config) : ∀ (fuel : Nat)
    (store : Store) (uid : Int) (q : Question) (u : Int),
    (store u).isSome = true →
    ((HandleAutoAdvance g cfg fuel store uid q).store u).isSome = true := by
  intro fuel
  induction fuel with
  | zero =>
    intro store uid q u h
    simp only [HandleAutoAdvance]
    split <;> exact h
  | succ n ih =>
    intro store uid q u h
    simp only [HandleAutoAdvance]
    split
    · exact h
    · split
      · exact h
      · split
        · exact h
        · split
          · exact updateCurrentQuestion_isSome store uid u _ h
          · exact ih _ uid _ u (updateCurrentQuestion_isSome store uid u _ h)

/-- Helper: `moveToNextQuestion` never removes a present session. -/
theorem moveToNextQuestion_isSome (g : Graph) (cfg : Config) (fuel : Nat)
    (store : Store) (uid : Int) (nid : String) (u : Int)
    (h : (store u).isSome = true) :
    ((moveToNextQuestion g cfg fuel store uid nid).store u).isSome = true := by
  simp only [moveToNextQuestion]
  split
  · exact h
  · split
    · exact updateCurrentQuestion_isSome store uid u _ h
    · exact handleAutoAdvance_isSome g cfg fuel _ uid _ u
        (updateCurrentQuestion_isSome store uid u _ h)

/-- Helper: a successful `ProcessAnswer` never removes a present session. -/
theorem processAnswer_isSome (g : Graph) (store store' : Store) (uid u : Int)
    (answer : String) (hok : ProcessAnswer g store uid answer = Except.ok store')
    (h : (store u).isSome = true) : (store' u).isSome = true := by
  cases hs : store uid with
  | none =>
    simp only [ProcessAnswer, hs] at hok
    exact absurd hok (by simp)
  | some st =>
    cases hq : g st.currentQuestionID with
    | none =>
      simp only [ProcessAnswer, hs, hq] at hok
      exact absurd hok (by simp)
    | some q =>
      simp only [ProcessAnswer, hs, hq] at hok
      injection hok with h2
      subst h2
      exact setUserState_isSome store uid u _ h

/-- Helper: `handleTextInput` never removes a present session. -/
theorem handleTextInput_isSome (g : Graph) (cfg : Config) (fuel : Nat)
    (store : Store) (uid : Int) (st : UserState) (text : String) (u : Int)
    (h : (store u).isSome = true) :
    ((handleTextInput g cfg fuel store uid st text).1 u).isSome = true := by
  simp only [handleTextInput]
  split
  · exact h
  · split
    · exact h
    · split
      · split
        · exact h
        · rename_i store1 hok
          split
          · exact processAnswer_isSome g store store1 uid u text hok h
          · rename_i o rest heq
            exact moveToNextQuestion_isSome g cfg fuel store1 uid o.nextID u
              (processAnswer_isSome g store store1 uid u text hok h)
      · exact h

/-- Helper: `startConversation` never removes a present session. -/
theorem startConversation_isSome (g : Graph) (cfg : Config) (fuel : Nat)
    (store : Store) (uid : Int) (st : UserState) (u : Int)
    (h : (store u).isSome = true) :
    ((startConversation g cfg fuel store uid st).1 u).isSome = true := by
  simp only [startConversation]
  split
  · exact h
  · split
    · exact setUserState_isSome store uid u _ h
    · exact handleAutoAdvance_isSome g cfg fuel _ uid _ u
        (setUserState_isSome store uid u _ h)

/-- Helper: get-or-create leaves the user's session present. -/
theorem getOrCreateUserState_isSome (store : Store) (uid : Int) (name : String) :
    ((GetOrCreateUserState store uid name).1 uid).isSome = true := by
  cases hs : store uid with
  | none => simp [GetOrCreateUserState, hs, SetUserState]
  | some st => simp [GetOrCreateUserState, hs]

/-- Counterexample to claim C6: a button-callback from user 9, who has no
session, leaves the store without a session for user 9 — callbacks do not
create sessions. -/
theorem C6_counterexample_callback_creates_no_session :
    emptyStore 9 = none
    ∧ (HandleCallbackQuery gQ1 cfgEx 10 emptyStore 9 "Yes").1 9 = none :=
  ⟨rfl, rfl⟩

/-- Claim C6 as amended: a text or command message from a user always leaves
a session stored for that user (created on first contact), but a
button-callback from a user with no session is dropped and the store is left
unchanged — callbacks never create a session. -/
theorem C6_amended_session_creation :
    (∀ (g : Graph) (cfg : Config) (fuel : Nat) (store : Store) (uid : Int)
        (user : TgUser) (m : Inbound),
        ((HandleMessage g cfg fuel store uid user m).1 uid).isSome = true)
    ∧ (∀ (g : Graph) (cfg : Config) (fuel : Nat) (store : Store) (uid : Int)
        (payload : String), store uid = none →
        (HandleCallbackQuery g cfg fuel store uid payload).1 = store) := by
  constructor
  · intro g cfg fuel store uid user m
    have hbase := getOrCreateUserState_isSome store uid (GetTelegramName user)
    cases m with
    | command c =>
      simp only [HandleMessage, handleCommand]
      split
      · exact startConversation_isSome g cfg fuel _ uid _ uid hbase
      · exact hbase
    | text s =>
      simp only [HandleMessage]
      exact handleTextInput_isSome g cfg fuel _ uid _ s uid hbase
  · intro g cfg fuel store uid payload h
    simp only [HandleCallbackQuery, h]

/-- Witness for C6's amended claim: a plain text message from sessionless
user 3 leaves a session for user 3; a callback from sessionless user 9
leaves the store unchanged. -/
theorem C6_witness :
    ((HandleMessage gQ1 cfgEx 10 emptyStore 3 { firstName := "Al" }
        (Inbound.text "hi")).1 3).isSome = true
    ∧ (HandleCallbackQuery gQ1 cfgEx 10 emptyStore 9 "Yes").1 = emptyStore :=
  ⟨C6_amended_session_creation.1 gQ1 cfgEx 10 emptyStore 3 { firstName := "Al" }
      (Inbound.text "hi"),
   C6_amended_session_creation.2 gQ1 cfgEx 10 emptyStore 9 "Yes" rfl⟩

/-- A node whose only option points at the non-existent node "nowhere". -/
def qDangling : Question :=
  { id := "c", text := "Q", options := [{ text := "A", nextID := "nowhere" }] }

/-- Graph containing only the dangling node. -/
def gDangling : Graph := fun s => if s = "c" then some qDangling else none

/-- One session, positioned at the dangling node, with no answers yet. -/
def storeDangling : Store :=
  SetUserState emptyStore 1 { currentQuestionID := "c", name := "N" }

/-- Counterexample to claim C7: selecting "A" at node "c", whose next node
"nowhere" is absent from the graph, reports an error — but the answers map
has gained the entry ("Q", "A"), so the session is *not* unmutated. -/
theorem C7_counterexample_missing_next_mutates_answers :
    gDangling "nowhere" = none
    ∧ ((ProcessOptionAnswer gDangling cfgEx 10 storeDangling 1 "A").err).isSome = true
    ∧ ((ProcessOptionAnswer gDangling cfgEx 10 storeDangling 1 "A").store 1).map
        (fun s => s.answers) = some [("Q", "A")]
    ∧ (storeDangling 1).map (fun s => s.answers) = some [] :=
  ⟨rfl, rfl, rfl, rfl⟩

/-- Claim C7 as amended: when the matched option's next node is absent from
the graph (and its action is not the location request), `ProcessOptionAnswer`
reports an error without crashing and without moving the position — but the
answer has already been recorded: the final store holds the session with the
selected label keyed by the node's display text, position unchanged. -/
theorem C7_missing_next_amended (g : Graph) (cfg : Config) (fuel : Nat)
    (store : Store) (uid : Int) (st : UserState) (q : Question) (opt : QOption)
    (payload : String) (hs : store uid = some st)
    (hq : g st.currentQuestionID = some q)
    (hfind : findOption payload q.options = some opt)
    (hact : opt.action ≠ "get_location") (hmiss : g opt.nextID = none) :
    ProcessOptionAnswer g cfg fuel store uid payload
      = ⟨SetUserState store uid (st.AddAnswer q.GetDisplayText payload), [],
         some "failed to get next question"⟩
    ∧ (st.AddAnswer q.GetDisplayText payload).currentQuestionID
        = st.currentQuestionID := by
  refine ⟨?_, rfl⟩
  simp only [ProcessOptionAnswer, hs, hq, hfind, ProcessAnswer, hact,
    moveToNextQuestion, hmiss]
  simp

/-- Witness for C7's amended claim at the dangling-option fixture. -/
theorem C7_witness :
    ProcessOptionAnswer gDangling cfgEx 10 storeDangling 1 "A"
      = ⟨SetUserState storeDangling 1
           (UserState.AddAnswer { currentQuestionID := "c", name := "N" } "Q" "A"),
         [], some "failed to get next question"⟩ :=
  (C7_missing_next_amended gDangling cfgEx 10 storeDangling 1
    { currentQuestionID := "c", name := "N" } qDangling
    { text := "A", nextID := "nowhere" } "A" rfl rfl rfl (by decide) rfl).1

/-- A free-text node with one unconditional continuation option to "end". -/
def qName : Question :=
  { id := "name_q", text := "Your name?", inputType := "text",
    options := [{ text := "", nextID := "end" }] }

/-- Graph for the text-capture scenario. -/
def gName : Graph := fun s =>
  if s = "name_q" then some qName
  else if s = "end" then some qEnd
  else none

/-- One session, positioned at the free-text node. -/
def storeName : Store :=
  SetUserState emptyStore 1 { currentQuestionID := "name_q", name := "N" }

/-- Claim C8: on free text at a node whose input kind is set, the raw text is
recorded keyed by the node's *display text*; with no options the position is
parked; with options the session moves to the first option's next node
(whatever the text says), here stated for a next node that exists and does
not itself auto-advance. -/
theorem C8_text_capture :
    (∀ (g : Graph) (cfg : Config) (fuel : Nat) (store : Store) (uid : Int)
        (st : UserState) (q : Question) (text : String),
        store uid = some st → st.currentQuestionID ≠ "" →
        g st.currentQuestionID = some q → q.inputType ≠ "" → q.options = [] →
        handleTextInput g cfg fuel store uid st text
          = (SetUserState store uid (st.AddAnswer q.GetDisplayText text), []))
    ∧ (∀ (g : Graph) (cfg : Config) (fuel : Nat) (store : Store) (uid : Int)
        (st : UserState) (q : Question) (text : String) (o : QOption)
        (rest : List QOption) (nq : Question),
        store uid = some st → st.currentQuestionID ≠ "" →
        g st.currentQuestionID = some q → q.inputType ≠ "" →
        q.options = o :: rest → g o.nextID = some nq → nq.autoAdvance = false →
        (handleTextInput g cfg fuel store uid st text).1 uid
          = some { currentQuestionID := o.nextID,
                   answers := setAnswer st.answers q.GetDisplayText text,
                   name := st.name }) := by
  constructor
  · intro g cfg fuel store uid st q text hs hne hq hin hopts
    simp only [handleTextInput, hne, hq, ProcessAnswer, hs, hopts, if_false,
      bne_iff_ne, ne_eq, hin, not_false_eq_true, if_true]
  · intro g cfg fuel store uid st q text o rest nq hs hne hq hin hopts hnq hauto
    have hset : SetUserState store uid (st.AddAnswer q.GetDisplayText text) uid
        = some (st.AddAnswer q.GetDisplayText text) := setUserState_self store uid _
    obtain ⟨evs, hok⟩ := processQuestion_ok cfg
      (UpdateCurrentQuestion
        (SetUserState store uid (st.AddAnswer q.GetDisplayText text)) uid o.nextID)
      uid nq { st.AddAnswer q.GetDisplayText text with currentQuestionID := o.nextID }
      (by simp only [UpdateCurrentQuestion, hset]; exact setUserState_self _ uid _)
    simp only [handleTextInput, hne, hq, ProcessAnswer, hs, hopts, if_false,
      bne_iff_ne, ne_eq, hin, not_false_eq_true, if_true, moveToNextQuestion,
      hnq, hok, handleAutoAdvance_not_auto g cfg fuel _ uid nq hauto]
    simp only [UpdateCurrentQuestion, hset]
    exact setUserState_self _ uid _

/-- Witness for C8: sending "Alice" at the free-text node records
("Your name?", "Alice") and moves the session to "end". -/
theorem C8_witness :
    (handleTextInput gName cfgEx 10 storeName 1
        { currentQuestionID := "name_q", name := "N" } "Alice").1 1
      = some { currentQuestionID := "end",
               answers := setAnswer [] "Your name?" "Alice", name := "N" } :=
  C8_text_capture.2 gName cfgEx 10 storeName 1
    { currentQuestionID := "name_q", name := "N" } qName "Alice"
    { text := "", nextID := "end" } [] qEnd rfl (by decide) rfl (by decide) rfl rfl rfl

/-- A session positioned at "end" holding one recorded answer. -/
def storeAns : Store :=
  SetUserState emptyStore 1
    { currentQuestionID := "end", answers := [("Q1", "Yes")], name := "N" }

/-- Claim C9: the answers summary is appended exactly when the node's id is
the literal "end" and the node renders through the single-text branch (empty
message sequence, non-empty text); a node with a non-empty message sequence
renders without any summary whatever its id; and the summary of an empty
answers map is the empty string. -/
theorem C9_summary_on_end_only :
    (∀ (cfg : Config) (store : Store) (uid : Int) (st : UserState) (q : Question),
        store uid = some st → q.messages = [] → q.text ≠ "" →
        ProcessQuestion cfg store uid q
          = Except.ok
              ((if 0 < q.images.length
                then SendImages q.images (q.GetDelayMs cfg.delayMs) else [])
                ++ [Emission.text
                      (if q.id = "end"
                       then replaceNamePlaceholder q.text st.name
                              ++ generateAnswersSummary st.answers
                       else replaceNamePlaceholder q.text st.name)
                      (BuildKeyboard q)]))
    ∧ (∀ (cfg : Config) (store : Store) (uid : Int) (st : UserState) (q : Question),
        store uid = some st → q.messages ≠ [] →
        ProcessQuestion cfg store uid q
          = Except.ok
              ((if 0 < q.images.length
                then SendImages q.images (q.GetDelayMs cfg.delayMs) else [])
                ++ SendMessages cfg st.name (BuildKeyboard q) q.messages))
    ∧ generateAnswersSummary [] = "" := by
  refine ⟨?_, ?_, rfl⟩
  · intro cfg store uid st q hs hmsg htxt
    simp only [ProcessQuestion, hs, hmsg, List.length_nil, lt_irrefl, if_false,
      bne_iff_ne, ne_eq, htxt, not_false_eq_true, if_true]
  · intro cfg store uid st q hs hmsg
    simp only [ProcessQuestion, hs, List.length_pos.mpr hmsg, if_true]

/-- Witness for C9: node "end" with one answer gets the summary appended to
"Done"; the two-message node emits its sequence with no summary. -/
theorem C9_witness :
    ProcessQuestion cfgEx storeAns 1 qEnd
      = Except.ok
          [Emission.text ("Done" ++ generateAnswersSummary [("Q1", "Yes")]) none]
    ∧ ProcessQuestion cfgEx storeMsgs 1 qMsgs
      = Except.ok (SendMessages cfgEx "N" (BuildKeyboard qMsgs) qMsgs.messages) :=
  ⟨C9_summary_on_end_only.1 cfgEx storeAns 1
      { currentQuestionID := "end", answers := [("Q1", "Yes")], name := "N" }
      qEnd rfl rfl (by decide),
   C9_summary_on_end_only.2.1 cfgEx storeMsgs 1 { name := "N" } qMsgs rfl (by decide)⟩

/-- Claim C10: the display name captured from a Telegram user object is never
empty — it is the first name when non-empty, else the username when
non-empty, else the literal "User". -/
theorem C10_display_name_never_empty (u : TgUser) :
    GetTelegramName u ≠ ""
    ∧ (u.firstName ≠ "" → GetTelegramName u = u.firstName)
    ∧ (u.firstName = "" → u.userName ≠ "" → GetTelegramName u = u.userName)
    ∧ (u.firstName = "" → u.userName = "" → GetTelegramName u = "User") := by
  unfold GetTelegramName
  by_cases h1 : u.firstName = ""
  · by_cases h2 : u.userName = ""
    · simp [h1, h2]
    · simp [h1, h2]
  · simp [h1]

/-- Witness for C10 at a user with neither first name nor username. -/
theorem C10_witness :
    GetTelegramName { firstName := "", userName := "" } = "User" :=
  (C10_display_name_never_empty { firstName := "", userName := "" }).2.2.2 rfl rfl

/-- Witness for C5's amended claim: three messages yield two inter-message
sleeps of the global 5 ms; the 999 ms override is returned by `GetDelayMs`;
the two-message node's emission is exactly its message sequence. -/
theorem C5_amended_witness :
    sleeps (SendMessages cfgEx "N" none ["a", "b", "c"])
        = List.replicate (["a", "b", "c"].length - 1) cfgEx.delayMs
    ∧ qMsgs.GetDelayMs 5 = 999
    ∧ qEnd.GetDelayMs 5 = 5
    ∧ ProcessQuestion cfgEx storeMsgs 1 qMsgs
        = Except.ok (SendMessages cfgEx "N" (BuildKeyboard qMsgs) qMsgs.messages) :=
  ⟨C5_amended_delay_semantics.1 cfgEx "N" none ["a", "b", "c"],
   C5_amended_delay_semantics.2.1 qMsgs 5 999 rfl,
   C5_amended_delay_semantics.2.2.1 qEnd 5 rfl,
   C5_amended_delay_semantics.2.2.2 cfgEx storeMsgs 1 { name := "N" } qMsgs
     rfl rfl (by decide)⟩
